import Mathlib

/-!
Verification of the pension-dashboard contribution projection engine.

The two dashboard variants (`dashboard2.py` and `pension_dashboard.py`) are
shallowly embedded over the rationals: Python floats carrying exact decimal
constants become `ℚ`, `if` chains become `if` chains, and the per-option
pipeline inside each script's top level becomes explicit functions of the
sidebar inputs.
-/

/-- Personal allowance computed inline at the top of `compute_tax` in
`dashboard2.py`: £12,570 up to £100,000 of income, zero from £125,140,
and linearly tapered in between. -/
def personal_allowance (income : ℚ) : ℚ :=
  if income ≤ 100000 then 12570
  else if income ≥ 125140 then 0
  else 12570 - (income - 100000) / 2

/-- `compute_tax` from `dashboard2.py`: 2024/25 UK income tax with the
tapered personal allowance, 20% to £50,270, 40% to £125,140, 45% above. -/
def compute_tax (income : ℚ) : ℚ :=
  if income ≤ personal_allowance income then 0
  else if income ≤ 50270 then
    (income - personal_allowance income) * (20 / 100)
  else if income ≤ 125140 then
    (50270 - personal_allowance income) * (20 / 100) + (income - 50270) * (40 / 100)
  else
    (50270 - personal_allowance income) * (20 / 100) + (125140 - 50270) * (40 / 100)
      + (income - 125140) * (45 / 100)

/-- `compute_ni` from `dashboard2.py`: national insurance at 8% between
£12,570 and £50,270 plus 2% above £50,270. -/
def compute_ni (income : ℚ) : ℚ :=
  if income ≤ 12570 then 0
  else (min income 50270 - 12570) * (8 / 100)
    + (if 50270 < income then (income - 50270) * (2 / 100) else 0)

/-- `calculate_corrected_tax` from `pension_dashboard.py`: same band
structure as `compute_tax` but with the allowance fixed at £12,570
(no taper). -/
def calculate_corrected_tax (income : ℚ) : ℚ :=
  if income ≤ 12570 then 0
  else if income ≤ 50270 then (income - 12570) * (20 / 100)
  else if income ≤ 125140 then
    (50270 - 12570) * (20 / 100) + (income - 50270) * (40 / 100)
  else
    (50270 - 12570) * (20 / 100) + (125140 - 50270) * (40 / 100)
      + (income - 125140) * (45 / 100)

/-- `calculate_corrected_ni` from `pension_dashboard.py`: national
insurance with a 12% mid-band rate and 2% above £50,270. -/
def calculate_corrected_ni (income : ℚ) : ℚ :=
  if income ≤ 12570 then 0
  else if income ≤ 50270 then (income - 12570) * (12 / 100)
  else (50270 - 12570) * (12 / 100) + (income - 50270) * (2 / 100)

/-- Modelled from the spec: the reconciled Flat-Threshold Levy Calculator
with `midRate` as a configurable parameter (the spec's recommended default
is 8%); the source hardcodes 8% in `compute_ni` and 12% in
`calculate_corrected_ni`, so the parameterised form itself is not in `src/`. -/
def compute_levy (midRate : ℚ) (income : ℚ) : ℚ :=
  if income ≤ 12570 then 0
  else (min income 50270 - 12570) * midRate
    + (if 50270 < income then (income - 50270) * (2 / 100) else 0)

/-- **C2**: `compute_tax`'s allowance equals the spec's clamp formula
`clamp(12570 - max(0, income - 100000) / 2, 0, 12570)` everywhere; in
particular income £100,000 keeps the full £12,570 allowance, income
£112,570 gets exactly £6,285, and every income ≥ £125,140 gets zero. -/
theorem C2_taper_allowance (income : ℚ) :
    personal_allowance income
      = min 12570 (max 0 (12570 - (max 0 (income - 100000)) / 2)) ∧
    personal_allowance 100000 = 12570 ∧
    personal_allowance 112570 = 6285 ∧
    (125140 ≤ income → personal_allowance income = 0) := by
  refine ⟨?_, by norm_num [personal_allowance], by norm_num [personal_allowance], ?_⟩
  · simp only [personal_allowance, min_def, max_def]
    split_ifs <;> linarith
  · intro h
    simp only [personal_allowance]
    split_ifs <;> linarith

/-- Witness for **C2** at income 130000 (≥ 125140 so the allowance is zero). -/
theorem C2_taper_allowance_witness : personal_allowance 130000 = 0 :=
  (C2_taper_allowance 130000).2.2.2 (by norm_num)

/-- **C5**: both source levy functions are instances of the configurable
levy engine (`compute_ni` at an 8% mid-rate, `calculate_corrected_ni` at
12%), and at the default 8% mid-rate the levy is 0 up to £12,570, equals
`(min(income, 50270) - 12570) * 8%` above £12,570, and adds
`(income - 50270) * 2%` above £50,270. -/
theorem C5_levy_schedule (income : ℚ) :
    compute_ni income = compute_levy (8 / 100) income ∧
    calculate_corrected_ni income = compute_levy (12 / 100) income ∧
    (income ≤ 12570 → compute_levy (8 / 100) income = 0) ∧
    (12570 < income →
      compute_levy (8 / 100) income
        = (min income 50270 - 12570) * (8 / 100)
          + (if 50270 < income then (income - 50270) * (2 / 100) else 0)) := by
  refine ⟨rfl, ?_, ?_, ?_⟩
  · simp only [calculate_corrected_ni, compute_levy, min_def]
    split_ifs <;> linarith
  · intro h
    simp only [compute_levy, if_pos h]
  · intro h
    simp only [compute_levy, if_neg (not_le.mpr h)]

lemma tax_eq (x : ℚ) : compute_tax x =
    if x ≤ 12570 then 0
    else if x ≤ 50270 then (x - 12570) * (20 / 100)
    else if x ≤ 100000 then
      (50270 - 12570) * (20 / 100) + (x - 50270) * (40 / 100)
    else if x ≤ 125140 then
      (50270 - (12570 - (x - 100000) / 2)) * (20 / 100) + (x - 50270) * (40 / 100)
    else
      (50270 - 0) * (20 / 100) + (125140 - 50270) * (40 / 100)
        + (x - 125140) * (45 / 100) := by
  rcases le_or_lt x 100000 with hA | hA
  · have hPA : personal_allowance x = 12570 := by
      rw [personal_allowance, if_pos hA]
    simp only [compute_tax, hPA]
    split_ifs <;> linarith
  · rcases lt_or_le x 125140 with hB | hB
    · have hPA : personal_allowance x = 12570 - (x - 100000) / 2 := by
        rw [personal_allowance, if_neg (by linarith), if_neg (by linarith)]
      simp only [compute_tax, hPA]
      split_ifs <;> linarith
    · have hPA : personal_allowance x = 0 := by
        rw [personal_allowance, if_neg (by linarith), if_pos (by linarith)]
      simp only [compute_tax, hPA]
      split_ifs <;> linarith

lemma tax_mono {a b : ℚ} (hab : a ≤ b) : compute_tax a ≤ compute_tax b := by
  rw [tax_eq a, tax_eq b]
  split_ifs <;> linarith

lemma tax_nonneg (x : ℚ) : 0 ≤ compute_tax x := by
  simp only [compute_tax, personal_allowance]
  split_ifs <;> linarith

lemma ni_mono {a b : ℚ} (hab : a ≤ b) : compute_ni a ≤ compute_ni b := by
  simp only [compute_ni, min_def]
  split_ifs <;> linarith

lemma ni_nonneg (x : ℚ) : 0 ≤ compute_ni x := by
  simp only [compute_ni, min_def]
  split_ifs <;> linarith

lemma cc_tax_mono {a b : ℚ} (hab : a ≤ b) :
    calculate_corrected_tax a ≤ calculate_corrected_tax b := by
  simp only [calculate_corrected_tax]
  split_ifs <;> linarith

lemma cc_tax_nonneg (x : ℚ) : 0 ≤ calculate_corrected_tax x := by
  simp only [calculate_corrected_tax]
  split_ifs <;> linarith

lemma cc_ni_mono {a b : ℚ} (hab : a ≤ b) :
    calculate_corrected_ni a ≤ calculate_corrected_ni b := by
  simp only [calculate_corrected_ni]
  split_ifs <;> linarith

lemma cc_ni_nonneg (x : ℚ) : 0 ≤ calculate_corrected_ni x := by
  simp only [calculate_corrected_ni]
  split_ifs <;> linarith

/-- **C1**: for `0 ≤ a ≤ b`, every tax/levy variant in the source is
monotonically non-decreasing (`computeTax(a) ≤ computeTax(b)`, likewise
for the levy), and every result is non-negative. -/
theorem C1_monotone_nonneg (a b : ℚ) (h0 : 0 ≤ a) (hab : a ≤ b) :
    compute_tax a ≤ compute_tax b ∧ compute_ni a ≤ compute_ni b ∧
    calculate_corrected_tax a ≤ calculate_corrected_tax b ∧
    calculate_corrected_ni a ≤ calculate_corrected_ni b ∧
    0 ≤ compute_tax a ∧ 0 ≤ compute_ni a ∧
    0 ≤ calculate_corrected_tax b ∧ 0 ≤ calculate_corrected_ni b :=
  ⟨tax_mono hab, ni_mono hab, cc_tax_mono hab, cc_ni_mono hab,
    tax_nonneg a, ni_nonneg a, cc_tax_nonneg b, cc_ni_nonneg b⟩

/-- Witness for **C1** at the pair (20000, 60000). -/
theorem C1_monotone_nonneg_witness :
    compute_tax 20000 ≤ compute_tax 60000 ∧
    compute_ni 20000 ≤ compute_ni 60000 ∧
    calculate_corrected_tax 20000 ≤ calculate_corrected_tax 60000 ∧
    calculate_corrected_ni 20000 ≤ calculate_corrected_ni 60000 ∧
    0 ≤ compute_tax 20000 ∧ 0 ≤ compute_ni 20000 ∧
    0 ≤ calculate_corrected_tax 60000 ∧ 0 ≤ calculate_corrected_ni 60000 :=
  C1_monotone_nonneg 20000 60000 (by norm_num) (by norm_num)

/-- Witness for **C5** at income 60000 (above both thresholds). -/
theorem C5_levy_schedule_witness :
    compute_levy (8 / 100) 60000
      = (min (60000 : ℚ) 50270 - 12570) * (8 / 100)
        + (if (50270 : ℚ) < 60000 then ((60000 : ℚ) - 50270) * (2 / 100) else 0) :=
  (C5_levy_schedule 60000).2.2.2 (by norm_num)

/-- The future-value computation from `dashboard2.py`'s per-option loop
(`future_current_pot + future_annual_contrib + future_extra_pension`),
packaged as the spec's `project(balance0, recurring, oneOff, r, years)`:
the starting balance and one-off contribution compound geometrically and
the recurring contribution accrues as an ordinary annuity, with an
explicit branch at zero growth. -/
def project (balance0 recurring oneOff r : ℚ) (years : ℕ) : ℚ :=
  balance0 * (1 + r) ^ years
    + (if r ≠ 0 then recurring * (((1 + r) ^ years - 1) / r)
       else recurring * (years : ℚ))
    + oneOff * (1 + r) ^ years

/-- The loop-sum annuity from `pension_dashboard.py` line 71:
`annual_pension_contrib * sum((1+g)^(years-i) for i in range(1, years+1))`. -/
def annuity_loop (c r : ℚ) (years : ℕ) : ℚ :=
  c * (((List.range years).map (fun i => (1 + r) ^ (years - (i + 1)))).sum)

/-- The closed-form annuity from `dashboard2.py` lines 234-237:
`annual_pension * (((1+r)^years - 1) / r)` when `r ≠ 0`, else
`annual_pension * years`. -/
def annuity_closed (c r : ℚ) (years : ℕ) : ℚ :=
  if r ≠ 0 then c * (((1 + r) ^ years - 1) / r) else c * (years : ℚ)

/-- `monthly_pension_income` from `dashboard2.py` line 242: 25% of the pot
drawn tax-free at 4%, the remaining 75% drawn at 4% keeping 80%. -/
def monthly_pension_income (pot : ℚ) : ℚ :=
  ((pot * (25 / 100) * (4 / 100)) + (pot * (75 / 100) * (4 / 100) * (80 / 100))) / 12

/-- `monthly_isa_income` from `dashboard2.py` line 244. -/
def monthly_isa_income (pot : ℚ) : ℚ :=
  (pot * (4 / 100)) / 12

/-- `total_monthly_income` from `dashboard2.py` line 245. -/
def total_monthly_income (pensionPot isaPot : ℚ) : ℚ :=
  monthly_pension_income pensionPot + monthly_isa_income isaPot

/-- The spec's parameterised post-liability monthly income formula
(§4.4), with withdrawal rate `w`, tax-free fraction `tf` and effective
tax rate `etr`, stated from the spec's words for comparison with the
source formula. -/
def post_liability_monthly_spec (w tf etr pensionPot savingsPot : ℚ) : ℚ :=
  ((pensionPot * tf * w) + (pensionPot * (1 - tf) * w * (1 - etr))) / 12
    + (savingsPot * w) / 12

/-- **C7**: the source's post-liability monthly income coincides with the
spec's formula at the default configuration `withdrawalRate = 0.04`,
`taxFreeFraction = 0.25`, `effectiveTaxRate = 0.20`, i.e. it equals
`((P*0.25*0.04) + (P*0.75*0.04*0.80))/12 + (S*0.04)/12`. -/
theorem C7_monthly_income_formula :
    (∀ P S : ℚ, total_monthly_income P S
      = post_liability_monthly_spec (4 / 100) (25 / 100) (20 / 100) P S) ∧
    (∀ P S : ℚ, total_monthly_income P S
      = ((P * (25 / 100) * (4 / 100)) + (P * (75 / 100) * (4 / 100) * (80 / 100))) / 12
        + (S * (4 / 100)) / 12) := by
  constructor <;> intro P S <;>
    simp only [total_monthly_income, monthly_pension_income, monthly_isa_income,
      post_liability_monthly_spec] <;> ring

/-- **C6**: the Retirement Projector's annuity identities hold:
`project(0, c, 0, 0, n) = c * n` via the explicit zero-growth branch, and
`project(0, c, 0, r, 1) = c` for every `r ≠ 0`. -/
theorem C6_annuity_identity (c r : ℚ) (n : ℕ) (hr : r ≠ 0) :
    project 0 c 0 0 n = c * n ∧ project 0 c 0 r 1 = c := by
  constructor
  · simp [project]
  · simp only [project, if_pos hr, pow_one]
    field_simp

/-- Witness for **C6** with `c = 7`, `r = 1/2`, `n = 4`. -/
theorem C6_annuity_identity_witness :
    project 0 7 0 0 4 = 7 * 4 ∧ project 0 7 0 (1 / 2) 1 = 7 :=
  C6_annuity_identity 7 (1 / 2) 4 (by norm_num)

lemma geom_list_sum (x : ℚ) (n : ℕ) :
    (x - 1) * ((List.range n).map (fun i => x ^ i)).sum = x ^ n - 1 := by
  induction n with
  | zero => simp
  | succ n ih =>
    rw [List.range_succ, List.map_append, List.sum_append]
    simp only [List.map_cons, List.map_nil, List.sum_cons, List.sum_nil, add_zero]
    have hexp : (x - 1) * ((List.map (fun i => x ^ i) (List.range n)).sum + x ^ n)
        = (x - 1) * (List.map (fun i => x ^ i) (List.range n)).sum + (x - 1) * x ^ n := by
      ring
    rw [hexp, ih]
    ring

lemma annuity_sum_reverse (x : ℚ) (n : ℕ) :
    ((List.range n).map (fun i => x ^ (n - (i + 1)))).sum
      = ((List.range n).map (fun i => x ^ i)).sum := by
  induction n with
  | zero => simp
  | succ n ih =>
    have hL : List.range (n + 1) = 0 :: (List.range n).map Nat.succ :=
      List.range_succ_eq_map n
    have hR : List.range (n + 1) = List.range n ++ [n] := List.range_succ n
    conv_lhs => rw [hL]
    conv_rhs => rw [hR]
    simp only [List.map_cons, List.sum_cons, List.map_map, List.map_append,
      List.sum_append, List.map_nil, List.sum_nil, add_zero]
    have hfun : ((List.range n).map ((fun i => x ^ (n + 1 - (i + 1))) ∘ Nat.succ)).sum
        = ((List.range n).map (fun i => x ^ (n - (i + 1)))).sum := by
      congr 1
      apply List.map_congr_left
      intro i _
      simp only [Function.comp_apply]
      congr 1
      omega
    rw [hfun, ih]
    have hhead : x ^ (n + 1 - (0 + 1)) = x ^ n := by
      congr 1
    rw [hhead]
    ring

lemma annuity_loop_closed {r : ℚ} (hr : r ≠ 0) (c : ℚ) (n : ℕ) :
    annuity_loop c r n = c * (((1 + r) ^ n - 1) / r) := by
  have hx : (1 + r) - 1 = r := by ring
  have hgeom := geom_list_sum (1 + r) n
  rw [hx] at hgeom
  have hsum : ((List.range n).map (fun i => (1 + r) ^ i)).sum
      = ((1 + r) ^ n - 1) / r := by
    field_simp
    linarith [hgeom]
  rw [annuity_loop, annuity_sum_reverse, hsum]

lemma annuity_loop_zero (c : ℚ) (n : ℕ) : annuity_loop c 0 n = c * n := by
  rw [annuity_loop, annuity_sum_reverse]
  have hones : (List.range n).map (fun i => ((1 : ℚ) + 0) ^ i)
      = List.replicate n (1 : ℚ) := by
    rw [List.eq_replicate_iff]
    refine ⟨by simp, ?_⟩
    intro y hy
    obtain ⟨i, _, hi⟩ := List.mem_map.mp hy
    simpa using hi.symm
  rw [hones, List.sum_replicate]
  simp

/-- **C10**: the loop-sum annuity of `pension_dashboard.py` and the
closed-form annuity of `dashboard2.py` agree: for `r ≠ 0` the loop sum
`c * Σ_{i=1}^{n} (1+r)^(n-i)` equals `c * (((1+r)^n - 1) / r)`, and both
equal `c * n` at `r = 0`. -/
theorem C10_annuity_refinement (c r : ℚ) (n : ℕ) (hr1 : -1 < r) (hr : r ≠ 0)
    (hn : 1 ≤ n) :
    annuity_loop c r n = c * (((1 + r) ^ n - 1) / r) ∧
    annuity_loop c 0 n = c * n ∧
    annuity_closed c 0 n = c * n ∧
    annuity_loop c r n = annuity_closed c r n := by
  refine ⟨annuity_loop_closed hr c n, annuity_loop_zero c n, ?_, ?_⟩
  · simp [annuity_closed]
  · rw [annuity_loop_closed hr c n, annuity_closed, if_pos hr]

/-- Witness for **C10** with `c = 3`, `r = 1`, `n = 2`. -/
theorem C10_annuity_refinement_witness :
    annuity_loop 3 1 2 = 3 * (((1 + 1) ^ 2 - 1) / 1) ∧
    annuity_loop 3 0 2 = 3 * 2 ∧
    annuity_closed 3 0 2 = 3 * 2 ∧
    annuity_loop 3 1 2 = annuity_closed 3 1 2 :=
  C10_annuity_refinement 3 1 2 (by norm_num) (by norm_num) (by norm_num)

/-- Line 59 of `pension_dashboard.py`: the taxable income fed to the
tax/NI calculators is `total_income - pension_contribution`, with no
clamping and no deduction of the recurring annual contribution. -/
def pd_taxable_income (total_income pension_contribution : ℚ) : ℚ :=
  total_income - pension_contribution

/-- The record returned by `calculate_scenario` in `pension_dashboard.py`. -/
structure PDScenario where
  pension_contribution : ℚ
  tax_paid : ℚ
  ni_paid : ℚ
  cash_available : ℚ
  isa_actual : ℚ
  pension_pot : ℚ
  isa_pot : ℚ
  total_monthly : ℚ

/-- `calculate_scenario` from `pension_dashboard.py` (lines 58-89), with
the module-level sidebar values passed explicitly: `total_income`,
`current_pension_pot`, `annual_pension_contrib`, the growth rates and
the horizon, then the option's pension and ISA contributions. -/
def calculate_scenario (total_income current_pension_pot annual_pension_contrib
    pension_growth isa_growth : ℚ) (years : ℕ)
    (pension_contribution isa_contribution : ℚ) : PDScenario :=
  let taxable_income := pd_taxable_income total_income pension_contribution
  let tax_paid := calculate_corrected_tax taxable_income
  let ni_paid := calculate_corrected_ni taxable_income
  let cash_available := total_income - pension_contribution - tax_paid - ni_paid
  let isa_actual := min isa_contribution cash_available
  let pension_pot := (current_pension_pot + pension_contribution)
      * (1 + pension_growth) ^ years
      + annuity_loop annual_pension_contrib pension_growth years
  let isa_pot := isa_actual * (1 + isa_growth) ^ years
  let monthly_pension := ((pension_pot * (25 / 100) * (4 / 100))
      + ((pension_pot * (75 / 100) * (4 / 100)) * (80 / 100))) / 12
  let monthly_isa := (isa_pot * (4 / 100)) / 12
  { pension_contribution := pension_contribution
    tax_paid := tax_paid
    ni_paid := ni_paid
    cash_available := cash_available
    isa_actual := isa_actual
    pension_pot := pension_pot
    isa_pot := isa_pot
    total_monthly := monthly_pension + monthly_isa }

/-- Lines 255 / 138 of `dashboard2.py` (TOTAL aggregation mode): income
after pension contributions, clamped at zero. -/
def d2_income_after_pension (income_base total_pension_contrib : ℚ) : ℚ :=
  max (income_base - total_pension_contrib) 0

/-- `cash_available_value` of `dashboard2.py`'s TOTAL aggregation mode
(lines 254-259): disposable cash after tax and NI, minus the ISA
contribution (uncapped). -/
def d2_cash_available (annual_salary one_off annual_pension extra isa : ℚ) : ℚ :=
  let income_after := d2_income_after_pension (annual_salary + one_off)
      (annual_pension + extra)
  income_after - (compute_tax income_after + compute_ni income_after) - isa

/-- `future_pension_pot` of `dashboard2.py`'s per-option loop
(lines 233-239). -/
def d2_future_pension_pot (current_pension annual_pension extra r : ℚ)
    (years : ℕ) : ℚ :=
  current_pension * (1 + r) ^ years
    + annuity_closed annual_pension r years
    + extra * (1 + r) ^ years

/-- Counterexample to **C3**: `pension_dashboard.py` feeds
`total_income - pension_contribution` to the calculators without clamping,
so at `total_income = 100`, `pension_contribution = 200` the taxable income
is -100, not `max(100 - 200, 0) = 0`. -/
theorem C3_counterexample :
    pd_taxable_income 100 200 ≠ max ((100 : ℚ) - 200) 0 ∧
    pd_taxable_income 100 200 < 0 ∧
    (calculate_scenario 100 0 0 0 0 1 200 0).tax_paid
      = calculate_corrected_tax (pd_taxable_income 100 200) ∧
    (calculate_scenario 100 0 0 0 0 1 200 0).ni_paid
      = calculate_corrected_ni (pd_taxable_income 100 200) := by
  refine ⟨by norm_num [pd_taxable_income], by norm_num [pd_taxable_income], rfl, rfl⟩

/-- **C3 (amended)**: in `dashboard2.py`'s TOTAL aggregation mode the
taxable income fed to `compute_tax` and `compute_ni` is
`max(grossAnnualIncome + oneOffIncome - (recurring + extra), 0)` and is
never negative; `pension_dashboard.py`'s `calculate_scenario` instead
feeds `total_income - optionPensionContribution`, unclamped and without
subtracting the recurring contribution. -/
theorem C3_taxable_income (annual_salary one_off annual_pension extra : ℚ)
    (total_income current_pot annual_contrib pg ig p i : ℚ) (years : ℕ) :
    d2_income_after_pension (annual_salary + one_off) (annual_pension + extra)
      = max (annual_salary + one_off - (annual_pension + extra)) 0 ∧
    0 ≤ d2_income_after_pension (annual_salary + one_off) (annual_pension + extra) ∧
    (calculate_scenario total_income current_pot annual_contrib pg ig years p i).tax_paid
      = calculate_corrected_tax (pd_taxable_income total_income p) ∧
    (calculate_scenario total_income current_pot annual_contrib pg ig years p i).ni_paid
      = calculate_corrected_ni (pd_taxable_income total_income p) ∧
    pd_taxable_income total_income p = total_income - p :=
  ⟨rfl, le_max_right _ _, rfl, rfl, rfl⟩

/-- Counterexample to **C4**: in `calculate_scenario` the reported cash
available is the disposable income itself, not disposable minus the capped
savings contribution: at `total_income = 50000`, `isa_contribution = 1000`
the ISA actually used is 1000 but the cash available is unchanged. -/
theorem C4_counterexample :
    (calculate_scenario 50000 0 0 0 0 1 0 1000).isa_actual
      = min 1000 (calculate_scenario 50000 0 0 0 0 1 0 1000).cash_available ∧
    (calculate_scenario 50000 0 0 0 0 1 0 1000).isa_actual = 1000 ∧
    (calculate_scenario 50000 0 0 0 0 1 0 1000).cash_available
      ≠ (calculate_scenario 50000 0 0 0 0 1 0 1000).cash_available
        - (calculate_scenario 50000 0 0 0 0 1 0 1000).isa_actual := by
  refine ⟨rfl, ?_, ?_⟩
  · show min 1000 ((50000 : ℚ) - 0 - calculate_corrected_tax (pd_taxable_income 50000 0)
      - calculate_corrected_ni (pd_taxable_income 50000 0)) = 1000
    norm_num [pd_taxable_income, calculate_corrected_tax, calculate_corrected_ni]
  · show ((50000 : ℚ) - 0 - calculate_corrected_tax (pd_taxable_income 50000 0)
          - calculate_corrected_ni (pd_taxable_income 50000 0))
      ≠ ((50000 : ℚ) - 0 - calculate_corrected_tax (pd_taxable_income 50000 0)
          - calculate_corrected_ni (pd_taxable_income 50000 0))
        - min 1000 ((50000 : ℚ) - 0 - calculate_corrected_tax (pd_taxable_income 50000 0)
          - calculate_corrected_ni (pd_taxable_income 50000 0))
    norm_num [pd_taxable_income, calculate_corrected_tax, calculate_corrected_ni]

/-- **C4 (amended)**: `calculate_scenario` caps the savings contribution,
`savingsUsed = min(savingsContribution, disposableBeforeSavings)`, but its
reported cash available is the disposable income itself (the capped
savings are not subtracted); consequently both the cash available and the
residual `disposable - savingsUsed` are non-negative whenever the
disposable income is. -/
theorem C4_capped_savings (t cp ac pg ig p i : ℚ) (years : ℕ)
    (h : 0 ≤ (calculate_scenario t cp ac pg ig years p i).cash_available) :
    (calculate_scenario t cp ac pg ig years p i).isa_actual
      = min i (calculate_scenario t cp ac pg ig years p i).cash_available ∧
    (calculate_scenario t cp ac pg ig years p i).cash_available
      = t - p - (calculate_scenario t cp ac pg ig years p i).tax_paid
          - (calculate_scenario t cp ac pg ig years p i).ni_paid ∧
    0 ≤ (calculate_scenario t cp ac pg ig years p i).cash_available ∧
    0 ≤ (calculate_scenario t cp ac pg ig years p i).cash_available
        - (calculate_scenario t cp ac pg ig years p i).isa_actual :=
  ⟨rfl, rfl, h, sub_nonneg.mpr (min_le_right _ _)⟩

/-- Witness for **C4 (amended)** at `total_income = 50000`,
`isa_contribution = 1000` (disposable income 38022.40 ≥ 0). -/
theorem C4_capped_savings_witness :
    (calculate_scenario 50000 0 0 0 0 1 0 1000).isa_actual
      = min 1000 (calculate_scenario 50000 0 0 0 0 1 0 1000).cash_available ∧
    (calculate_scenario 50000 0 0 0 0 1 0 1000).cash_available
      = 50000 - 0 - (calculate_scenario 50000 0 0 0 0 1 0 1000).tax_paid
          - (calculate_scenario 50000 0 0 0 0 1 0 1000).ni_paid ∧
    0 ≤ (calculate_scenario 50000 0 0 0 0 1 0 1000).cash_available ∧
    0 ≤ (calculate_scenario 50000 0 0 0 0 1 0 1000).cash_available
        - (calculate_scenario 50000 0 0 0 0 1 0 1000).isa_actual :=
  C4_capped_savings 50000 0 0 0 0 0 1000 1
    (by norm_num [calculate_scenario, pd_taxable_income,
      calculate_corrected_tax, calculate_corrected_ni])

lemma tax_lip {a b : ℚ} (hab : a ≤ b) :
    compute_tax b ≤ compute_tax a + (b - a) * (1 / 2) := by
  rw [tax_eq a, tax_eq b]
  split_ifs <;> linarith

lemma ni_lip {a b : ℚ} (hab : a ≤ b) :
    compute_ni b ≤ compute_ni a + (b - a) * (8 / 100) := by
  simp only [compute_ni, min_def]
  split_ifs <;> linarith

lemma net_income_mono {a b : ℚ} (hab : a ≤ b) :
    a - (compute_tax a + compute_ni a) ≤ b - (compute_tax b + compute_ni b) := by
  have h1 := tax_lip hab
  have h2 := ni_lip hab
  linarith

/-- **C9**: in TOTAL aggregation mode with all other inputs fixed, a
larger extra pension contribution gives at most the same cash available
and at least the same projected pension pot, the latter strictly when the
growth rate is positive and the extra contributions differ. -/
theorem C9_extra_pension_ordering
    (annual_salary one_off annual_pension isa current_pension r e1 e2 : ℚ)
    (years : ℕ) (hr : -1 ≤ r) (he : e1 ≤ e2) :
    d2_cash_available annual_salary one_off annual_pension e2 isa
      ≤ d2_cash_available annual_salary one_off annual_pension e1 isa ∧
    d2_future_pension_pot current_pension annual_pension e1 r years
      ≤ d2_future_pension_pot current_pension annual_pension e2 r years ∧
    (0 < r → e1 < e2 →
      d2_future_pension_pot current_pension annual_pension e1 r years
        < d2_future_pension_pot current_pension annual_pension e2 r years) := by
  have hdiff : d2_future_pension_pot current_pension annual_pension e2 r years
      - d2_future_pension_pot current_pension annual_pension e1 r years
      = (e2 - e1) * (1 + r) ^ years := by
    simp only [d2_future_pension_pot]
    ring
  refine ⟨?_, ?_, ?_⟩
  · have hx : d2_income_after_pension (annual_salary + one_off) (annual_pension + e2)
        ≤ d2_income_after_pension (annual_salary + one_off) (annual_pension + e1) := by
      simp only [d2_income_after_pension]
      exact max_le_max (by linarith) le_rfl
    have hnet := net_income_mono hx
    simp only [d2_cash_available]
    linarith
  · have hpow : (0 : ℚ) ≤ (1 + r) ^ years := pow_nonneg (by linarith) _
    have := mul_nonneg (sub_nonneg.mpr he) hpow
    linarith
  · intro hrpos hlt
    have hpow : (0 : ℚ) < (1 + r) ^ years := pow_pos (by linarith) _
    have := mul_pos (sub_pos.mpr hlt) hpow
    linarith

/-- Witness for **C9** with salary 1000, growth 1/10, extras 1 < 2. -/
theorem C9_extra_pension_ordering_witness :
    d2_cash_available 1000 0 0 2 0 ≤ d2_cash_available 1000 0 0 1 0 ∧
    d2_future_pension_pot 500 0 1 (1 / 10) 3
      ≤ d2_future_pension_pot 500 0 2 (1 / 10) 3 ∧
    ((0 : ℚ) < 1 / 10 → (1 : ℚ) < 2 →
      d2_future_pension_pot 500 0 1 (1 / 10) 3
        < d2_future_pension_pot 500 0 2 (1 / 10) 3) :=
  C9_extra_pension_ordering 1000 0 0 0 500 (1 / 10) 1 2 3 (by norm_num) (by norm_num)

/-- One row of the results table in `dashboard2.py`: the option's label
and the two metrics the scoring step reads ("Cash Available" and
"Monthly Retirement Income (Post-Tax)"). -/
structure ScenarioResult where
  label : String
  cash : ℚ
  income : ℚ

/-- `pandas.Series.min` over the column values (line 297 of
`dashboard2.py`). -/
def listMin : List ℚ → ℚ
  | [] => 0
  | x :: xs => xs.foldl min x

/-- `pandas.Series.max` over the column values (line 297 of
`dashboard2.py`). -/
def listMax : List ℚ → ℚ
  | [] => 0
  | x :: xs => xs.foldl max x

/-- The normalisation of lines 302-303 of `dashboard2.py`:
`(x - min)/(max - min)` when `max - min > 0`, else `1`. -/
def normVal (lo hi x : ℚ) : ℚ :=
  if 0 < hi - lo then (x - lo) / (hi - lo) else 1

/-- The score of line 304 of `dashboard2.py` for one row, with the
min/max taken over the whole results list. -/
def scoreIn (l : List ScenarioResult) (s : ScenarioResult) : ℚ :=
  (1 / 2) * normVal (listMin (l.map ScenarioResult.cash))
      (listMax (l.map ScenarioResult.cash)) s.cash
    + (1 / 2) * normVal (listMin (l.map ScenarioResult.income))
      (listMax (l.map ScenarioResult.income)) s.income

/-- `idxmax` over scores (line 308 of `dashboard2.py`): keep the running
best and replace it only on a strictly larger score, so the first
occurrence of the maximum wins. -/
def pickBest (f : ScenarioResult → ℚ) (b : ScenarioResult) :
    List ScenarioResult → ScenarioResult
  | [] => b
  | r :: rs => if f b < f r then pickBest f r rs else pickBest f b rs

/-- Lines 297-309 of `dashboard2.py`: score every row and return the
label of the first row attaining the maximal score. -/
def recommend : List ScenarioResult → Option String
  | [] => none
  | r :: rs => some (ScenarioResult.label (pickBest (scoreIn (r :: rs)) r rs))

lemma pickBest_spec (f : ScenarioResult → ℚ) :
    ∀ (rs : List ScenarioResult) (b : ScenarioResult),
      ∃ pre post,
        b :: rs = pre ++ pickBest f b rs :: post ∧
        (∀ s ∈ pre, f s < f (pickBest f b rs)) ∧
        (∀ s ∈ b :: rs, f s ≤ f (pickBest f b rs)) := by
  intro rs
  induction rs with
  | nil =>
    intro b
    refine ⟨[], [], rfl, ?_, ?_⟩
    · intro s hs
      simp at hs
    · intro s hs
      simp only [List.mem_cons, List.not_mem_nil, or_false] at hs
      subst hs
      exact le_rfl
  | cons r rs ih =>
    intro b
    simp only [pickBest]
    by_cases h : f b < f r
    · rw [if_pos h]
      obtain ⟨pre, post, hd, hpre, hall⟩ := ih r
      refine ⟨b :: pre, post, ?_, ?_, ?_⟩
      · rw [List.cons_append, ← hd]
      · intro s hs
        rcases List.mem_cons.mp hs with hs | hs
        · subst hs
          exact lt_of_lt_of_le h (hall r (List.mem_cons_self r rs))
        · exact hpre s hs
      · intro s hs
        rcases List.mem_cons.mp hs with hs | hs
        · subst hs
          exact le_of_lt (lt_of_lt_of_le h (hall r (List.mem_cons_self r rs)))
        · exact hall s hs
    · rw [if_neg h]
      obtain ⟨pre, post, hd, hpre, hall⟩ := ih b
      cases pre with
      | nil =>
        simp only [List.nil_append] at hd
        injection hd with h1 h2
        refine ⟨[], r :: rs, ?_, ?_, ?_⟩
        · simp only [List.nil_append, ← h1]
        · intro s hs
          simp at hs
        · intro s hs
          rcases List.mem_cons.mp hs with hs | hs
          · subst hs
            exact le_of_eq (congrArg f h1)
          · rcases List.mem_cons.mp hs with hs | hs
            · subst hs
              exact le_trans (not_lt.mp h) (le_of_eq (congrArg f h1))
            · exact hall s (List.mem_cons_of_mem b hs)
      | cons q pre' =>
        simp only [List.cons_append] at hd
        injection hd with h1 h2
        refine ⟨b :: r :: pre', post, ?_, ?_, ?_⟩
        · rw [List.cons_append, List.cons_append, ← h2]
        · intro s hs
          rcases List.mem_cons.mp hs with hs | hs
          · subst hs
            have := hpre q (List.mem_cons_self q pre')
            rwa [← h1] at this
          · rcases List.mem_cons.mp hs with hs | hs
            · subst hs
              have hb := hpre q (List.mem_cons_self q pre')
              rw [← h1] at hb
              exact lt_of_le_of_lt (not_lt.mp h) hb
            · exact hpre s (List.mem_cons_of_mem q hs)
        · intro s hs
          rcases List.mem_cons.mp hs with hs | hs
          · rw [hs]
            exact hall b (List.mem_cons_self b rs)
          · rcases List.mem_cons.mp hs with hs | hs
            · rw [hs]
              exact le_trans (not_lt.mp h) (hall b (List.mem_cons_self b rs))
            · exact hall s (List.mem_cons_of_mem b hs)

lemma foldl_min_le_init (xs : List ℚ) : ∀ b : ℚ, xs.foldl min b ≤ b := by
  induction xs with
  | nil => intro b; simp
  | cons y ys ih =>
    intro b
    rw [List.foldl_cons]
    exact le_trans (ih (min b y)) (min_le_left b y)

lemma init_le_foldl_max (xs : List ℚ) : ∀ b : ℚ, b ≤ xs.foldl max b := by
  induction xs with
  | nil => intro b; simp
  | cons y ys ih =>
    intro b
    rw [List.foldl_cons]
    exact le_trans (le_max_left b y) (ih (max b y))

lemma listMin_le_listMax (x : ℚ) (xs : List ℚ) :
    listMin (x :: xs) ≤ listMax (x :: xs) :=
  le_trans (foldl_min_le_init xs x) (init_le_foldl_max xs x)

/-- **C8**: on any non-empty results list, `recommend` scores each row as
`0.5 * norm(cash) + 0.5 * norm(income)` with each metric normalised as
`(x - min)/(max - min)` when `max > min` and as `1` when `max = min`, and
returns the label of the first row attaining the maximal score. -/
theorem C8_recommend_argmax (l : List ScenarioResult) (h : l ≠ []) :
    (∃ r pre post,
      recommend l = some r.label ∧
      l = pre ++ r :: post ∧
      (∀ s ∈ pre, scoreIn l s < scoreIn l r) ∧
      (∀ s ∈ l, scoreIn l s ≤ scoreIn l r)) ∧
    (∀ s, scoreIn l s
      = (1 / 2) * normVal (listMin (l.map ScenarioResult.cash))
          (listMax (l.map ScenarioResult.cash)) s.cash
        + (1 / 2) * normVal (listMin (l.map ScenarioResult.income))
          (listMax (l.map ScenarioResult.income)) s.income) ∧
    (∀ lo hi x : ℚ, lo < hi → normVal lo hi x = (x - lo) / (hi - lo)) ∧
    (∀ lo hi x : ℚ, hi = lo → normVal lo hi x = 1) ∧
    listMin (l.map ScenarioResult.cash) ≤ listMax (l.map ScenarioResult.cash) ∧
    listMin (l.map ScenarioResult.income) ≤ listMax (l.map ScenarioResult.income) := by
  obtain ⟨r0, rs, rfl⟩ := List.exists_cons_of_ne_nil h
  refine ⟨?_, fun s => rfl, ?_, ?_, ?_, ?_⟩
  · obtain ⟨pre, post, hd, hpre, hall⟩ := pickBest_spec (scoreIn (r0 :: rs)) rs r0
    exact ⟨pickBest (scoreIn (r0 :: rs)) r0 rs, pre, post, rfl, hd, hpre, hall⟩
  · intro lo hi x hlt
    rw [normVal, if_pos (by linarith)]
  · intro lo hi x heq
    rw [normVal, if_neg (by rw [heq]; simp)]
  · simp only [List.map_cons]
    exact listMin_le_listMax _ _
  · simp only [List.map_cons]
    exact listMin_le_listMax _ _

/-- Witness for **C8** on a concrete two-row results list. -/
theorem C8_recommend_argmax_witness :
    ∃ r pre post,
      recommend [⟨"Option 1", 1, 0⟩, ⟨"Option 2", 0, 1⟩] = some r.label ∧
      ([⟨"Option 1", 1, 0⟩, ⟨"Option 2", 0, 1⟩] : List ScenarioResult)
        = pre ++ r :: post ∧
      (∀ s ∈ pre, scoreIn [⟨"Option 1", 1, 0⟩, ⟨"Option 2", 0, 1⟩] s
        < scoreIn [⟨"Option 1", 1, 0⟩, ⟨"Option 2", 0, 1⟩] r) ∧
      (∀ s ∈ ([⟨"Option 1", 1, 0⟩, ⟨"Option 2", 0, 1⟩] : List ScenarioResult),
        scoreIn [⟨"Option 1", 1, 0⟩, ⟨"Option 2", 0, 1⟩] s
          ≤ scoreIn [⟨"Option 1", 1, 0⟩, ⟨"Option 2", 0, 1⟩] r) :=
  (C8_recommend_argmax [⟨"Option 1", 1, 0⟩, ⟨"Option 2", 0, 1⟩] (by simp)).1
